import Mathlib

/-!
# Verification of the vs-preview scening toolbar import/export engine

Shallow embedding of `src/vspreview/toolbars/scening/toolbar.py`.

Conventions of the embedding:
* Python `Frame` objects are modelled as `Int` frame indices (the spec's §3
  data model: an integer frame index; range validation happens in
  `SceningList.add`, which is the only place the code relies on it).
* Python exceptions are modelled with `Except PyErr`; an importer/exporter
  that returns `.ok` corresponds to a Python call that returns normally.
* `logging.warning` calls are modelled as `LogMsg` values accumulated in the
  result; `main.show_message` calls as `UserMsg` values.
* Strings are processed as `List Char` (`String.data`), matching Python's
  per-character semantics of `str.split`, `str.splitlines` and `re` scans.
-/

/-- Python exceptions relevant to this code. -/
inductive PyErr where
  | valueError
  | indexError
  | keyError (k : String)
  | typeError
deriving DecidableEq, Repr

deriving instance DecidableEq for Except

/-- Tags for the `logging.warning` messages emitted by the toolbar
(the payload of `droppedScenes` is the number interpolated into the
f-string in `SceningToolbar.import_file`). -/
inductive LogMsg where
  | droppedScenes (n : Nat)
  | nothingImported
  | invalidPlaceholders
  | tfmNoOvr
  | tooFewTimestamps
  | xmlParseFailed
  | failedParseFrame1
  | failedParseFrame2
  | tryLoadFailed (k : String)
deriving DecidableEq, Repr

/-- Messages shown via `main.show_message` by the export functions. -/
inductive UserMsg where
  | invalidPlaceholders
  | exportedToClipboard
deriving DecidableEq, Repr

/-- A scene: a labeled, optionally open-ended frame range (spec §3).
`«end» = none` is a single-frame scene. -/
structure Scene where
  start : Int
  «end» : Option Int
  label : String
deriving DecidableEq, Repr

/-- The ordered scene list, insertion order preserved (spec §3). -/
abbrev SceningList := List Scene

/-- Modelled from the spec: `SceningList.add` lives in `vspreview.models`,
which is not part of the excerpted sources.  Spec §4.1: `add(start, end=None,
label="") → Scene` "fails with `RangeError` if `start` or `end` lies outside
`[0, max_frame]` for the owning output, or if `end < start`.  On success,
inserts if not already present (by `(start,end)`); returns the Scene
(existing or newly created)."  The importers catch the failure as a Python
`ValueError`, so the error is modelled as `PyErr.valueError`.
Insertion dedups by `(start, end)`; label is not part of scene identity
(spec §3). -/
def SceningList.insertScene (sl : SceningList) (start : Int) (end_ : Option Int)
    (label : String) : Except PyErr (SceningList × Scene) :=
  match sl.find? (fun s => s.start = start && s.«end» = end_) with
  | some s => .ok (sl, s)
  | none => .ok (sl ++ [⟨start, end_, label⟩], ⟨start, end_, label⟩)

/-- Modelled from the spec: range validation of `SceningList.add` (spec
§4.1), wrapped around `SceningList.insertScene`. -/
def SceningList.add (sl : SceningList) (start : Int) (end_ : Option Int)
    (label : String) (maxFrame : Int) : Except PyErr (SceningList × Scene) :=
  if ¬(0 ≤ start ∧ start ≤ maxFrame) then .error .valueError
  else
    match end_ with
    | some e =>
      if ¬(0 ≤ e ∧ e ≤ maxFrame) then .error .valueError
      else if e < start then .error .valueError
      else SceningList.insertScene sl start end_ label
    | none => SceningList.insertScene sl start end_ label

/-! ## Python string primitives -/

/-- Python `str.isspace` / regex `\s` on the ASCII range (the whitespace
characters produced and consumed by the formats at hand). -/
def pyIsSpace (c : Char) : Bool :=
  c = ' ' || c = '\t' || c = '\n' || c = '\r' || c = '\x0b' || c = '\x0c'

/-- Worker for `pySplitL`, carrying the (reversed) current token. -/
def pySplitAux : List Char → List Char → List (List Char)
  | [], cur => if cur.isEmpty then [] else [cur.reverse]
  | c :: rest, cur =>
    if pyIsSpace c then
      if cur.isEmpty then pySplitAux rest []
      else cur.reverse :: pySplitAux rest []
    else pySplitAux rest (c :: cur)

/-- Python `str.split()` with no argument: split on runs of whitespace,
discarding empty tokens. -/
def pySplitL (cs : List Char) : List (List Char) := pySplitAux cs []

/-- Worker for `pySplitlinesL`, carrying the (reversed) current line. -/
def pySplitlinesAux : List Char → List Char → List (List Char)
  | [], cur => if cur.isEmpty then [] else [cur.reverse]
  | '\r' :: '\n' :: rest, cur => cur.reverse :: pySplitlinesAux rest []
  | c :: rest, cur =>
    if c = '\n' || c = '\r' then cur.reverse :: pySplitlinesAux rest []
    else pySplitlinesAux rest (c :: cur)

/-- Python `str.splitlines()` for the line breaks occurring in the file
formats at hand (`\n`, `\r`, `\r\n`); a trailing break yields no empty
final line. -/
def pySplitlinesL (cs : List Char) : List (List Char) := pySplitlinesAux cs []

/-- Decimal digit characters, fuel-based so that the kernel can evaluate it
(`fuel > n` suffices; `natToStrL` supplies `n + 1`). -/
def natDigits : Nat → Nat → List Char → List Char
  | 0, _, acc => acc
  | fuel + 1, n, acc =>
    if n < 10 then Nat.digitChar n :: acc
    else natDigits fuel (n / 10) (Nat.digitChar (n % 10) :: acc)

/-- Decimal rendering of a natural number, as Python `str(int)` produces for
non-negative values. -/
def natToStrL (n : Nat) : List Char := natDigits (n + 1) n []

/-- Python `str(int)`, modelled from its documented decimal output. -/
def pyStrOfInt (i : Int) : String :=
  if i < 0 then String.mk ('-' :: natToStrL i.natAbs) else String.mk (natToStrL i.natAbs)

/-- Numeric value of a decimal digit character. -/
def charVal (c : Char) : Nat := c.toNat - '0'.toNat

/-- Worker for `pyDigits?`: digits with Python's underscore-grouping rule
(an underscore must sit between two digits). -/
def pyDigitsAux : List Char → Nat → Option Nat
  | [], acc => some acc
  | c :: rest, acc =>
    if c.isDigit then pyDigitsAux rest (acc * 10 + charVal c)
    else if c = '_' then
      match rest with
      | c2 :: rest2 =>
        if c2.isDigit then pyDigitsAux rest2 (acc * 10 + charVal c2) else none
      | [] => none
    else none

/-- Parse a non-empty run of decimal digits (with Python 3 underscore
grouping); `none` models `ValueError`. -/
def pyDigits? : List Char → Option Nat
  | [] => none
  | c :: rest => if c.isDigit then pyDigitsAux rest (charVal c) else none

/-- Python `int(str)` on a whitespace-free token: optional sign followed by
digits.  (Tokens produced by `str.split()` carry no surrounding whitespace,
so the stripping step of `int()` is not modelled.) -/
def pyIntToken? : List Char → Option Int
  | [] => none
  | c :: rest =>
    if c = '-' then (pyDigits? rest).map (fun n => -(n : Int))
    else if c = '+' then (pyDigits? rest).map (fun n => (n : Int))
    else (pyDigits? (c :: rest)).map (fun n => (n : Int))

/-- Strip a literal off the front of a char list (regex/str literal match);
returns the remainder on success. -/
def dropLit : List Char → List Char → Option (List Char)
  | [], cs => some cs
  | _, [] => none
  | l :: ls, c :: cs => if c = l then dropLit ls cs else none

/-- Worker for `findSub`: index of the first occurrence of the needle. -/
def findSubAux (needle : List Char) : List Char → Nat → Option Nat
  | [], i => if needle.isEmpty then some i else none
  | c :: rest, i =>
    if (dropLit needle (c :: rest)).isSome then some i
    else findSubAux needle rest (i + 1)

/-- Python `str.find` for a literal needle. -/
def findSub (hay needle : List Char) : Option Nat := findSubAux needle hay 0

/-! ## Template formatting (`str.format` with `start`/`end`/`label` keywords)

Modelled from Python's documented `str.format` behaviour under the
keyword-only call the exports make
(`template.format(start=..., end=..., label=...)`).  CPython scans the
template left to right and, per replacement field, (1) parses the field
structurally — a stray `{` or `}`, an unterminated field, or a malformed
conversion is a `ValueError`, raised before any argument lookup — then
(2) looks the argument up: the leading component of the field name (up to
the first `.` or `[`) selects the argument; an empty or all-digit
component is a positional reference (auto-numbered when empty), which
raises `IndexError` under this call since no positional arguments are
passed, and any other component is a keyword, raising `KeyError` exactly
when it is not among `start`/`end`/`label`; and only then (3) renders the
value.  The first error aborts the whole call before any output is
produced, so separating the scan from the (total) substitution of known
fields is observationally faithful.

The scan below is exact about which templates format successfully, about
which raise the positional `IndexError`, and about which raise `KeyError`
(the only exception `export_multiline`/`export_single_line` catch) and
with which key — including fields that combine an unknown keyword with an
attribute/index suffix, a conversion or a format spec, where the lookup
error precedes the rendering, and unknown names inside a nested spec
field, which CPython looks up while expanding the spec (after the outer
field's own lookup, left to right).  Step (3) for a provided keyword with
an attribute/index suffix, a conversion, or a non-empty format spec
depends on `Frame.__format__`/`__repr__`/`getattr` behaviour in
`vspreview.core`, outside the excerpted sources: such fields — as well as
brace escapes inside a spec and nested spec fields beyond a single plain
name — are outside the modelled fragment and are mapped to `ValueError`,
standing for whatever non-`KeyError` outcome CPython produces there; no
theorem below quantifies over them. -/

/-- Characters ending the name part of a replacement field: `!` starts a
conversion, `:` starts a format spec, `}` closes the field, and a `{`
inside a field name is a CPython `ValueError`. -/
def fieldTermChar (c : Char) : Bool := c = '!' || c = ':' || c = '}' || c = '{'

/-- The leading component of a field name (up to the first `.` or `[`):
the part `str.format` looks up among its arguments. -/
def fieldFirst (name : List Char) : List Char :=
  name.takeWhile (fun c => !(c = '.' || c = '['))

/-- The field names the exports provide
(`template.format(start=..., end=..., label=...)`). -/
def fieldKnown (n : String) : Bool := n = "start" || n = "end" || n = "label"

/-- The error the argument lookup raises for a field whose leading name
component is `first`, under the keyword-only call the exports make: an
empty or all-digit component is a positional reference and raises
`IndexError`; an unknown keyword raises `KeyError`; `none` means the
keyword is provided. -/
def classifyArg (first : List Char) : Option PyErr :=
  if first.all Char.isDigit then some .indexError
  else if fieldKnown (String.mk first) then none
  else some (.keyError (String.mk first))

/-- A parsed template segment. -/
inductive Seg where
  | lit (c : Char)
  | field (n : String)
deriving DecidableEq, Repr

/-- Scan a format spec up to the outer field's closing `}`, fuel-based
(fuel ≥ length suffices).  Nested replacement fields (one nesting level)
are classified left to right with the same argument-lookup rule as
top-level fields, structural conversion errors first as CPython's parser
does; a nested field that is more than a plain provided name, a brace
escape, or a spec that closes with every lookup succeeding leaves the
field's final rendering outside the modelled fragment, reported as
`ValueError`. -/
def scanSpec : Nat → List Char → PyErr
  | 0, _ => .valueError
  | _ + 1, [] => .valueError
  | _ + 1, '}' :: _ => .valueError
  | fuel + 1, '{' :: inner =>
    let iname := inner.takeWhile (fun c => !fieldTermChar c)
    (match inner.dropWhile (fun c => !fieldTermChar c) with
     | '}' :: rest2 =>
       (match classifyArg (fieldFirst iname) with
        | some e => e
        | none => if iname = fieldFirst iname then scanSpec fuel rest2 else .valueError)
     | ':' :: _ =>
       (match classifyArg (fieldFirst iname) with
        | some e => e
        | none => .valueError)
     | '!' :: _ :: ':' :: _ =>
       (match classifyArg (fieldFirst iname) with
        | some e => e
        | none => .valueError)
     | '!' :: _ :: '}' :: _ =>
       (match classifyArg (fieldFirst iname) with
        | some e => e
        | none => .valueError)
     | _ => .valueError)
  | fuel + 1, _ :: rest => scanSpec fuel rest

/-- Parse one replacement field, given the characters after its opening
`{`.  Returns the parsed segment and the rest of the template for a plain
provided-keyword field — the only fields that render inside the modelled
fragment; an empty format spec renders identically, since
`format(value, str())` is `str(value)` — and otherwise the error the
field produces, in CPython's order: structural `ValueError`s first
(raised while parsing the field, before any lookup), then the
argument-lookup error of `classifyArg`, then, for provided keywords with
an attribute/index suffix, a conversion or a non-empty spec, the
out-of-fragment `ValueError` stand-in (after the left-to-right lookups
the spec's nested fields perform). -/
def readFieldChunk (cs : List Char) : Except PyErr (Seg × List Char) :=
  let name := cs.takeWhile (fun c => !fieldTermChar c)
  match cs.dropWhile (fun c => !fieldTermChar c) with
  | '}' :: rest2 =>
    (match classifyArg (fieldFirst name) with
     | some e => .error e
     | none =>
       if name = fieldFirst name then .ok (.field (String.mk name), rest2)
       else .error .valueError)
  | ':' :: '}' :: rest2 =>
    (match classifyArg (fieldFirst name) with
     | some e => .error e
     | none =>
       if name = fieldFirst name then .ok (.field (String.mk name), rest2)
       else .error .valueError)
  | ':' :: spec =>
    (match classifyArg (fieldFirst name) with
     | some e => .error e
     | none =>
       if name = fieldFirst name then .error (scanSpec (spec.length + 1) spec)
       else .error .valueError)
  | '!' :: _ :: ':' :: _ =>
    (match classifyArg (fieldFirst name) with
     | some e => .error e
     | none => .error .valueError)
  | '!' :: _ :: '}' :: _ =>
    (match classifyArg (fieldFirst name) with
     | some e => .error e
     | none => .error .valueError)
  | _ => .error .valueError

/-- The scan of `str.format`, fuel-based (fuel ≥ length of the template
suffices; every step consumes at least one character).  Literal text and
`{{`/`}}` escapes pass through; a lone `}` in literal text is a
`ValueError`; each replacement field is handled by `readFieldChunk`.  The
first error aborts the call. -/
def tmplParseF : Nat → List Char → Except PyErr (List Seg)
  | _, [] => .ok []
  | 0, _ :: _ => .error .valueError
  | fuel + 1, '{' :: '{' :: rest => (fun t => .lit '{' :: t) <$> tmplParseF fuel rest
  | fuel + 1, '}' :: '}' :: rest => (fun t => .lit '}' :: t) <$> tmplParseF fuel rest
  | fuel + 1, '{' :: rest =>
    (match readFieldChunk rest with
     | .ok (seg, rest2) => (fun t => seg :: t) <$> tmplParseF fuel rest2
     | .error e => .error e)
  | _ + 1, '}' :: _ => .error .valueError
  | fuel + 1, c :: rest => (fun t => .lit c :: t) <$> tmplParseF fuel rest

/-- The keyword arguments the export functions pass to `str.format`:
`start=scene.start, end=scene.end, label=scene.label`, rendered as Python
string substitution renders them.  An absent scene end displays as the
start (spec §4.3: "end defaults to start's display form when absent"). -/
def fmtArgs (s : Scene) (n : String) : Option String :=
  if n = "start" then some (pyStrOfInt s.start)
  else if n = "end" then some (pyStrOfInt (s.«end».getD s.start))
  else if n = "label" then some s.label
  else none

/-- Substitute a scene's values into the parsed segments. -/
def renderSegs (s : Scene) : List Seg → List Char
  | [] => []
  | .lit c :: rest => c :: renderSegs s rest
  | .field n :: rest => ((fmtArgs s n).getD "").data ++ renderSegs s rest

/-- Model of `template.format(start=scene.start, end=scene.end, label=scene.label)`. -/
def pyFormat (s : Scene) (template : List Char) : Except PyErr (List Char) :=
  (tmplParseF template.length template).map (renderSegs s)

/-- Result of an export handler: clipboard content after the call, messages
shown via `main.show_message`, warnings logged, or an uncaught exception. -/
inductive ExportResult where
  | normal (clipboard : String) (messages : List UserMsg) (warnings : List LogMsg)
  | raised (e : PyErr)
deriving DecidableEq, Repr

/-- The accumulation loop of `export_multiline`:
`export_str += template.format(...) + '\n'` per scene. -/
def exportLoopMulti (template : List Char) : List Scene → List Char → Except PyErr (List Char)
  | [], acc => .ok acc
  | s :: rest, acc =>
    match pyFormat s template with
    | .ok piece => exportLoopMulti template rest (acc ++ piece ++ ['\n'])
    | .error e => .error e

/-- The accumulation loop of `export_single_line`: no `'\n'` appended. -/
def exportLoopSingle (template : List Char) : List Scene → List Char → Except PyErr (List Char)
  | [], acc => .ok acc
  | s :: rest, acc =>
    match pyFormat s template with
    | .ok piece => exportLoopSingle template rest (acc ++ piece)
    | .error e => .error e

/-- The handler `SceningToolbar.export_multiline`: returns immediately when no list is
selected; on `KeyError` (invalid placeholder) warns, shows a message and
leaves the clipboard untouched; otherwise writes the rendered text to the
clipboard. -/
def export_multiline (cur : Option SceningList) (template : String)
    (clipboard : String) : ExportResult :=
  match cur with
  | none => .normal clipboard [] []
  | some sl =>
    match exportLoopMulti template.data sl [] with
    | .ok s => .normal (String.mk s) [.exportedToClipboard] []
    | .error (.keyError _) => .normal clipboard [.invalidPlaceholders] [.invalidPlaceholders]
    | .error e => .raised e

/-- The handler `SceningToolbar.export_single_line`. -/
def export_single_line (cur : Option SceningList) (template : String)
    (clipboard : String) : ExportResult :=
  match cur with
  | none => .normal clipboard [] []
  | some sl =>
    match exportLoopSingle template.data sl [] with
    | .ok s => .normal (String.mk s) [.exportedToClipboard] []
    | .error (.keyError _) => .normal clipboard [.invalidPlaceholders] [.invalidPlaceholders]
    | .error e => .raised e

/-! ## `SceningToolbar.import_simple` -/

/-- The list comprehension `[int(n) for n in line.split()]`: the first
failing `int()` raises `ValueError` (mapped to `none`). -/
def mapIntAll : List (List Char) → Option (List Int)
  | [] => some []
  | t :: ts =>
    match pyIntToken? t with
    | some v => (mapIntAll ts).map (fun vs => v :: vs)
    | none => none

/-- One line of `import_simple`.  `ValueError` (malformed int, range-failed
`add`) is caught and counted; `IndexError` from `fnumbers[0]`/`fnumbers[1]`
on a line with fewer than two fields is NOT caught. -/
def importSimpleLine (maxFrame : Int) (line : List Char) (sl : SceningList)
    (cnt : Nat) : Except PyErr (SceningList × Nat) :=
  match mapIntAll (pySplitL line) with
  | none => .ok (sl, cnt + 1)
  | some fnumbers =>
    match fnumbers.get? 0, fnumbers.get? 1 with
    | some f0, some f1 =>
      match SceningList.add sl f0 (some f1) "" maxFrame with
      | .ok (sl2, _) => .ok (sl2, cnt)
      | .error _ => .ok (sl, cnt + 1)
    | _, _ => .error .indexError

/-- The per-line loop of `import_simple`; an uncaught exception aborts it. -/
def importSimpleLoop (maxFrame : Int) : List (List Char) → SceningList → Nat →
    Except PyErr (SceningList × Nat)
  | [], sl, cnt => .ok (sl, cnt)
  | line :: rest, sl, cnt =>
    match importSimpleLine maxFrame line sl cnt with
    | .ok (sl2, cnt2) => importSimpleLoop maxFrame rest sl2 cnt2
    | .error e => .error e

/-- The importer `SceningToolbar.import_simple`. -/
def import_simple (maxFrame : Int) (content : String) (sl : SceningList)
    (cnt : Nat) : Except PyErr (SceningList × Nat × List LogMsg) :=
  (importSimpleLoop maxFrame (pySplitlinesL content.data) sl cnt).map
    (fun r => (r.1, r.2, []))

/-! ## `SceningToolbar.import_file` (the caller of every importer) -/

/-- The caller `SceningToolbar.import_file`.  Here `out_of_range_count` is
a Python `int` passed to `import_func` by value: `out_of_range_count += 1`
in an importer rebinds the importer's local parameter and never reaches
this caller's variable, which therefore stays 0.  The embedding returns the kept
list (`none` when the empty list was discarded) and the logged warnings. -/
def import_file
    (importer : String → SceningList → Nat → Except PyErr (SceningList × Nat × List LogMsg))
    (content : String) : Except PyErr (Option SceningList × List LogMsg) :=
  let out_of_range_count : Nat := 0
  match importer content [] out_of_range_count with
  | .error e => .error e
  | .ok (scening_list, _importerLocalCount, logs) =>
    let logs :=
      if out_of_range_count > 0 then logs ++ [.droppedScenes out_of_range_count]
      else logs
    if scening_list.length = 0 then .ok (none, logs ++ [.nothingImported])
    else .ok (some scening_list, logs)

/-! ## `SceningToolbar.import_qp` -/

/-- Try the first alternative of `r'(\d+)\sI|K'` at the current position:
one-or-more digits (greedy), one whitespace, literal `I`. -/
def qpTryNumI (cs : List Char) : Option (List Char × List Char) :=
  let digits := cs.takeWhile Char.isDigit
  if digits.isEmpty then none
  else
    match cs.dropWhile Char.isDigit with
    | c :: 'I' :: rest => if pyIsSpace c then some (digits, rest) else none
    | _ => none

/-- Model of `re.findall(r'(\d+)\sI|K', text)`: the alternation binds as
`(\d+)\sI` OR `K`, so a bare `K` matches with a non-participating group,
reported by `findall` as the empty string. -/
def qpScanF : Nat → List Char → List (List Char)
  | 0, _ => []
  | _ + 1, [] => []
  | fuel + 1, c :: rest =>
    match qpTryNumI (c :: rest) with
    | some (digits, rest2) => digits :: qpScanF fuel rest2
    | none => if c = 'K' then [] :: qpScanF fuel rest else qpScanF fuel rest

/-- Per-match loop of `import_qp`: `Frame(match)` applies `int()` to the
captured text (`ValueError` on the empty capture is caught and counted). -/
def qpLoop (maxFrame : Int) : List (List Char) → SceningList → Nat → SceningList × Nat
  | [], sl, cnt => (sl, cnt)
  | m :: rest, sl, cnt =>
    match pyIntToken? m with
    | none => qpLoop maxFrame rest sl (cnt + 1)
    | some v =>
      match SceningList.add sl v none "" maxFrame with
      | .ok (sl2, _) => qpLoop maxFrame rest sl2 cnt
      | .error _ => qpLoop maxFrame rest sl (cnt + 1)

/-- The importer `SceningToolbar.import_qp`. -/
def import_qp (maxFrame : Int) (content : String) (sl : SceningList)
    (cnt : Nat) : Except PyErr (SceningList × Nat × List LogMsg) :=
  let r := qpLoop maxFrame (qpScanF content.data.length content.data) sl cnt
  .ok (r.1, r.2, [])

/-! ## `SceningToolbar.import_lwi` -/

/-- Scan for the first position (without crossing a newline, since `.` does
not match `'\n'`) where `p` succeeds: the behaviour of a lazy `.*?` between
two pattern pieces. -/
def scanSameLine? {α : Type} (p : List Char → Option α) : List Char → Option α
  | [] => p []
  | c :: rest =>
    match p (c :: rest) with
    | some r => some r
    | none => if c = '\n' then none else scanSameLine? p rest

/-- Match `Codec=(\d+)` at the current position. -/
def lwiCodecAt (cs : List Char) : Option (Nat × List Char) :=
  match dropLit "Codec=".data cs with
  | some rest =>
    let digits := rest.takeWhile Char.isDigit
    if digits.isEmpty then none
    else some (digits.foldl (fun a c => a * 10 + charVal c) 0, rest.dropWhile Char.isDigit)
  | none => none

/-- Lazy `.*?\n`: skip to just after the first newline. -/
def skipToNewline : List Char → Option (List Char)
  | [] => none
  | '\n' :: rest => some rest
  | _ :: rest => skipToNewline rest

/-- Match `Key=(\d)` at the current position. -/
def lwiKeyAt (cs : List Char) : Option (Nat × List Char) :=
  match dropLit "Key=".data cs with
  | some (c :: rest) => if c.isDigit then some (charVal c, rest) else none
  | _ => none

/-- Try the pattern `Index=0.*?Codec=(\d+).*?\n.*?Key=(\d)` at the current
position; on success returns the two captures and the text after the
match. -/
def lwiTryAt (cs : List Char) : Option (Nat × Nat × List Char) := do
  let rest1 ← dropLit "Index=0".data cs
  let (codec, rest2) ← scanSameLine? lwiCodecAt rest1
  let rest3 ← skipToNewline rest2
  let (key, rest4) ← scanSameLine? lwiKeyAt rest3
  pure (codec, key, rest4)

/-- Non-overlapping leftmost matches of the lwi pattern (fuel ≥ length). -/
def lwiScanF : Nat → List Char → List (Nat × Nat)
  | 0, _ => []
  | _ + 1, [] => []
  | fuel + 1, c :: rest =>
    match lwiTryAt (c :: rest) with
    | some (codec, key, rest2) => (codec, key) :: lwiScanF fuel rest2
    | none => lwiScanF fuel rest

/-- The `(Codec, Key)` capture pairs scanned by `import_lwi`.  The source
calls `pattern.finditer(path.read_text(), re.RegexFlag.MULTILINE)`: the
second positional argument of `Pattern.finditer` is `pos`, and
`re.RegexFlag.MULTILINE` has integer value 8, so scanning starts at
character index 8. -/
def lwiMatches (content : String) : List (Nat × Nat) :=
  lwiScanF content.data.length (content.data.drop 8)

/-- Per-record loop of `import_lwi`: audio records
(`Codec >= AV_CODEC_ID_FIRST_AUDIO = 0x10000`) and non-key records advance
the frame counter without adding a scene; `Key == 1` video records add a
single-frame scene at the current counter. -/
def lwiLoop (maxFrame : Int) : List (Nat × Nat) → SceningList → Int → Nat → SceningList × Nat
  | [], sl, _, cnt => (sl, cnt)
  | (codec, key) :: rest, sl, frame, cnt =>
    if codec ≥ 0x10000 then lwiLoop maxFrame rest sl (frame + 1) cnt
    else if key ≠ 1 then lwiLoop maxFrame rest sl (frame + 1) cnt
    else
      match SceningList.add sl frame none "" maxFrame with
      | .ok (sl2, _) => lwiLoop maxFrame rest sl2 (frame + 1) cnt
      | .error _ => lwiLoop maxFrame rest sl (frame + 1) (cnt + 1)

/-- The importer `SceningToolbar.import_lwi`. -/
def import_lwi (maxFrame : Int) (content : String) (sl : SceningList)
    (cnt : Nat) : Except PyErr (SceningList × Nat × List LogMsg) :=
  let r := lwiLoop maxFrame (lwiMatches content) sl 0 cnt
  .ok (r.1, r.2, [])

/-! ## `SceningToolbar.import_tfm` -/

/-- Value of a run of decimal digit characters. -/
def digitsToNat (ds : List Char) : Nat := ds.foldl (fun a c => a * 10 + charVal c) 0

/-- Generic non-overlapping leftmost scan (`re.finditer`), fuel-based. -/
def scanAllF {α : Type} (tryAt : List Char → Option (α × List Char)) :
    Nat → List Char → List α
  | 0, _ => []
  | _ + 1, [] => []
  | fuel + 1, c :: rest =>
    match tryAt (c :: rest) with
    | some (a, rest2) => a :: scanAllF tryAt fuel rest2
    | none => scanAllF tryAt fuel rest

/-- Match `(\d+)\s\((\d+)\)` (the `tfm_frame_pattern`) at the current
position: a combed frame number with its raw mic value. -/
def tfmFrameTryAt (cs : List Char) : Option ((Int × Int) × List Char) :=
  let d1 := cs.takeWhile Char.isDigit
  if d1.isEmpty then none
  else
    match cs.dropWhile Char.isDigit with
    | c :: '(' :: rest =>
      if pyIsSpace c then
        let d2 := rest.takeWhile Char.isDigit
        if d2.isEmpty then none
        else
          match rest.dropWhile Char.isDigit with
          | ')' :: rest2 => some (((digitsToNat d1 : Int), (digitsToNat d2 : Int)), rest2)
          | _ => none
      else none
    | _ => none

/-- Match `(\d+),(\d+)\s\((\d+(?:\.\d+)%)\)` (the `tfm_group_pattern`) at
the current position; the third capture (the percentage text including the
`%`) is returned verbatim.  Note the decimal part is not optional in the
source pattern. -/
def tfmGroupTryAt (cs : List Char) : Option ((Int × Int × List Char) × List Char) :=
  let d1 := cs.takeWhile Char.isDigit
  if d1.isEmpty then none
  else
    match cs.dropWhile Char.isDigit with
    | ',' :: rest1 =>
      let d2 := rest1.takeWhile Char.isDigit
      if d2.isEmpty then none
      else
        match rest1.dropWhile Char.isDigit with
        | c :: '(' :: rest2 =>
          if pyIsSpace c then
            let d3 := rest2.takeWhile Char.isDigit
            if d3.isEmpty then none
            else
              match rest2.dropWhile Char.isDigit with
              | '.' :: rest3 =>
                let d4 := rest3.takeWhile Char.isDigit
                if d4.isEmpty then none
                else
                  match rest3.dropWhile Char.isDigit with
                  | '%' :: ')' :: rest4 =>
                    some (((digitsToNat d1 : Int), (digitsToNat d2 : Int),
                      d3 ++ '.' :: (d4 ++ ['%'])), rest4)
                  | _ => none
              | _ => none
          else none
        | _ => none
    | _ => none

/-- Python `set.add` of `TFMFrame`s: `Frame` equality/hash is by frame number, so a
frame already present (whatever its `mic`) is not re-added. -/
def tfmSetAdd (s : List (Int × Int)) (f : Int × Int) : List (Int × Int) :=
  if s.any (fun p => p.1 = f.1) then s else s ++ [f]

/-- The loop over `tfm_group_pattern` matches: each group becomes a scene
labeled `"<pct> combed"`, and the combed frames covered by the group's range
are removed from the `tfm_frames` set. -/
def tfmGroupsLoop (maxFrame : Int) : List (Int × Int × List Char) → SceningList →
    List (Int × Int) → Nat → SceningList × List (Int × Int) × Nat
  | [], sl, fr, cnt => (sl, fr, cnt)
  | (s, e, pct) :: rest, sl, fr, cnt =>
    match SceningList.add sl s (some e) (String.mk (pct ++ " combed".data)) maxFrame with
    | .ok (sl2, sc) =>
      tfmGroupsLoop maxFrame rest sl2
        (fr.filter (fun p => ¬(sc.start ≤ p.1 ∧ p.1 ≤ sc.«end».getD sc.start))) cnt
    | .error _ => tfmGroupsLoop maxFrame rest sl fr (cnt + 1)

/-- The loop over the remaining single combed frames, labeled with the raw
mic value.  (CPython iterates the `set` in implementation-defined order;
the embedding iterates in insertion order, which no claim depends on.) -/
def tfmSinglesLoop (maxFrame : Int) : List (Int × Int) → SceningList → Nat →
    SceningList × Nat
  | [], sl, cnt => (sl, cnt)
  | (f, mic) :: rest, sl, cnt =>
    match SceningList.add sl f none (pyStrOfInt mic) maxFrame with
    | .ok (sl2, _) => tfmSinglesLoop maxFrame rest sl2 cnt
    | .error _ => tfmSinglesLoop maxFrame rest sl (cnt + 1)

/-- The importer `SceningToolbar.import_tfm`.  When the log lacks the
`OVR HELP INFORMATION` section header it logs a warning and returns
(no exception is raised). -/
def import_tfm (maxFrame : Int) (content : String) (sl : SceningList)
    (cnt : Nat) : Except PyErr (SceningList × Nat × List LogMsg) :=
  match findSub content.data "OVR HELP INFORMATION".data with
  | none => .ok (sl, cnt, [.tfmNoOvr])
  | some i =>
    let log := content.data.drop i
    let tfm_frames := (scanAllF tfmFrameTryAt log.length log).foldl tfmSetAdd []
    match tfmGroupsLoop maxFrame (scanAllF tfmGroupTryAt log.length log) sl tfm_frames cnt with
    | (sl1, fr1, cnt1) =>
      let r := tfmSinglesLoop maxFrame fr1 sl1 cnt1
      .ok (r.1, r.2, [])

/-! ## `SceningToolbar.import_matroska_timestamps_v2`

`Time` values are modelled as exact rationals counted in milliseconds
(`Time(milliseconds=x)` stores `x` ms; `float(time)` yields seconds, i.e.
division by 1000).  At every value exercised by the claims the Python float
computations (`0.1`, `0.15`, `1/0.1`, `1/0.15`, their `round(_, 6)` and
`'{:.3f}'` renderings) agree exactly with the rational results.  The
rationals are represented as unnormalised fraction pairs with positive
denominator (`PyQ`), so that every operation is plain integer arithmetic
the kernel can evaluate; comparisons cross-multiply, which is exact for
positive denominators. -/

/-- An exact rational as an unnormalised fraction with positive
denominator. -/
structure PyQ where
  num : Int
  den : Int
deriving DecidableEq, Repr

/-- Subtraction of fractions. -/
def PyQ.sub (a b : PyQ) : PyQ := ⟨a.num * b.den - b.num * a.den, a.den * b.den⟩

/-- Division by a positive integer (`float(time)`: milliseconds → seconds
divides by 1000). -/
def PyQ.divInt (a : PyQ) (k : Int) : PyQ := ⟨a.num, a.den * k⟩

/-- Multiplication by a positive integer. -/
def PyQ.mulInt (a : PyQ) (k : Int) : PyQ := ⟨a.num * k, a.den⟩

/-- Reciprocal `1 / q` (sign moved to the numerator; `q = 0` would be Python's
`ZeroDivisionError`, which no claim exercises). -/
def PyQ.inv (a : PyQ) : PyQ := if a.num < 0 then ⟨-a.den, -a.num⟩ else ⟨a.den, a.num⟩

/-- Floor of a fraction with positive denominator. -/
def PyQ.floor (a : PyQ) : Int := a.num.fdiv a.den

/-- Comparison `|a| ≤ b` for fractions with positive denominators (`b ≥ 0`), by
cross-multiplication. -/
def PyQ.absLe (a b : PyQ) : Bool := |a.num| * b.den ≤ b.num * a.den

/-- Round-half-to-even to an integer (Python's `round`), for a positive
denominator: `r` is the remainder `0 ≤ r < den` past the floor. -/
def roundHalfEven (q : PyQ) : Int :=
  let f := q.floor
  let r := q.num - f * q.den
  if 2 * r < q.den then f
  else if q.den < 2 * r then f + 1
  else if f % 2 = 0 then f else f + 1

/-- Python `round(x, 6)`. -/
def round6 (q : PyQ) : PyQ := ⟨roundHalfEven (q.mulInt 1000000), 1000000⟩

/-- Unsigned decimal float literal: `digits`, `digits.digits`, `.digits`,
`digits.` (the forms occurring in timestamp files). -/
def pyFloatCore (cs : List Char) : Option PyQ :=
  let ip := cs.takeWhile Char.isDigit
  match cs.dropWhile Char.isDigit with
  | [] => if ip.isEmpty then none else some ⟨(digitsToNat ip : Int), 1⟩
  | '.' :: rest =>
    let fp := rest.takeWhile Char.isDigit
    if !(rest.dropWhile Char.isDigit).isEmpty then none
    else if ip.isEmpty && fp.isEmpty then none
    else some ⟨(digitsToNat ip : Int) * ((10 ^ fp.length : Nat) : Int) +
      (digitsToNat fp : Int), ((10 ^ fp.length : Nat) : Int)⟩
  | _ => none

/-- Python `float(str)` on the decimal fragment used by timestamp lines. -/
def pyFloat? : List Char → Option PyQ
  | '-' :: rest => (pyFloatCore rest).map (fun q => ⟨-q.num, q.den⟩)
  | '+' :: rest => pyFloatCore rest
  | cs => pyFloatCore cs

/-- Zero-padded 3-digit rendering of `n < 1000`. -/
def pad3 (n : Nat) : String :=
  if n < 10 then String.mk ('0' :: '0' :: natToStrL n)
  else if n < 100 then String.mk ('0' :: natToStrL n)
  else String.mk (natToStrL n)

/-- Python `'{:.3f}'.format(q)`: round half-to-even at 3 decimals. -/
def fmt3 (q : PyQ) : String :=
  let m := roundHalfEven (q.mulInt 1000)
  let sign := if m < 0 then "-" else ""
  let a := m.natAbs
  sign ++ String.mk (natToStrL (a / 1000)) ++ "." ++ pad3 (a % 1000)

/-- Inter-frame deltas `timestamps[i] - timestamps[i-1]`. -/
def v2Deltas : List PyQ → List PyQ
  | a :: b :: rest => PyQ.sub b a :: v2Deltas (b :: rest)
  | _ => []

/-- The run-splitting loop of `import_matroska_timestamps_v2`, iterating
over `deltas[1:]` with `i` the current index
(`abs(round(float(deltas[i] - scene_delta), 6)) <= 0.000_001` keeps the
run).  On a delta change the current run is closed with the source's `-1`
frame offset (`scene_end = Frame(i - 1)`) and labeled
`'{:.3f} fps'.format(1 / float(scene_delta))`; the run state is re-seeded
whether or not the `add` was in range.  Returns the final
`(scene_delta, scene_start, list, dropped)`. -/
def v2Loop (maxFrame : Int) : List PyQ → Nat → PyQ → Int → SceningList → Nat →
    PyQ × Int × SceningList × Nat
  | [], _, sd, ss, sl, cnt => (sd, ss, sl, cnt)
  | d :: rest, i, sd, ss, sl, cnt =>
    if PyQ.absLe ((round6 ((PyQ.sub d sd).divInt 1000))) ⟨1, 1000000⟩ then
      v2Loop maxFrame rest (i + 1) sd ss sl cnt
    else
      match SceningList.add sl ss (some ((i : Int) - 1))
          (fmt3 (PyQ.inv (sd.divInt 1000)) ++ " fps") maxFrame with
      | .ok (sl2, _) => v2Loop maxFrame rest (i + 1) d (i : Int) sl2 cnt
      | .error _ => v2Loop maxFrame rest (i + 1) d (i : Int) sl (cnt + 1)

/-- The importer `SceningToolbar.import_matroska_timestamps_v2`.  After the loop the
source's `scene_end` variable is always `None` again, so the closing `add`
of the last run always executes. -/
def import_matroska_timestamps_v2 (maxFrame : Int) (content : String)
    (sl : SceningList) (cnt : Nat) : Except PyErr (SceningList × Nat × List LogMsg) :=
  let timestamps := (pySplitlinesL content.data).filterMap pyFloat?
  if timestamps.length < 2 then .ok (sl, cnt, [.tooFewTimestamps])
  else
    match v2Deltas timestamps with
    | [] => .ok (sl, cnt, [])
    | d0 :: drest =>
      match v2Loop maxFrame drest 1 d0 0 sl cnt with
      | (sd, ss, sl1, cnt1) =>
        match SceningList.add sl1 ss (some ((timestamps.length : Int) - 1))
            (fmt3 (PyQ.inv (sd.divInt 1000)) ++ " fps") maxFrame with
        | .ok (sl2, _) => .ok (sl2, cnt1, [])
        | .error _ => .ok (sl1, cnt1 + 1, [])

/-! ## `SceningToolbar.__setstate__` -/

/-- A value stored in the persisted state mapping. -/
inductive PyValue where
  | pyNone
  | pyFrame (n : Int)
  | pyStr (s : String)
  | pyOther
deriving DecidableEq, Repr

/-- The persisted state mapping. -/
abbrev StateMap := List (String × PyValue)

/-- Mapping lookup (first binding wins). -/
def mapGet? (m : StateMap) (k : String) : Option PyValue :=
  (m.find? (fun p => p.1 = k)).map (fun p => p.2)

/-- The slice of toolbar state `__getstate__`/`__setstate__` handle. -/
structure ToolbarState where
  first_frame : Option Int
  second_frame : Option Int
  label : String
  export_template : String
deriving DecidableEq, Repr

/-- Lookup `state[k]`: raises `KeyError` when the key is absent. -/
def pyGetItem (m : StateMap) (k : String) : Except PyErr PyValue :=
  match mapGet? m k with
  | some v => .ok v
  | none => .error (.keyError k)

/-- The body of one frame-field block of `__setstate__`:
`v = state[k]; if v is not None and not isinstance(v, Frame): raise TypeError`. -/
def loadFrameFieldExc (m : StateMap) (k : String) : Except PyErr (Option Int) := do
  let v ← pyGetItem m k
  match v with
  | .pyNone => pure none
  | .pyFrame n => pure (some n)
  | _ => .error .typeError

/-- The surrounding `except (KeyError, TypeError)` handler: on those two
exceptions the field keeps its prior value and a warning is logged; any
other exception would propagate. -/
def handleFrameField (cur : Option Int) (warn : LogMsg) :
    Except PyErr (Option Int) → Except PyErr (Option Int × List LogMsg)
  | .ok v => .ok (v, [])
  | .error (.keyError _) => .ok (cur, [warn])
  | .error .typeError => .ok (cur, [warn])
  | .error e => .error e

/-- Modelled from the spec: `try_load` lives in `vspreview.core`, which is
not part of the excerpted sources.  Spec §6: fields are "loaded with type
validation; invalid entries are logged and default to empty/absent rather
than aborting restore". -/
def try_load_str (m : StateMap) (k : String) (cur : String) : String × List LogMsg :=
  match mapGet? m k with
  | some (.pyStr s) => (s, [])
  | _ => (cur, [.tryLoadFailed k])

/-- Restore `SceningToolbar.__setstate__` on the persisted fields it validates
itself plus the two `try_load` string fields.  (The final
`try_load(state, 'settings', ...)` call touches only the opaque settings
collaborator and is not part of the modelled state.) -/
def setstate (st : ToolbarState) (m : StateMap) :
    Except PyErr (ToolbarState × List LogMsg) := do
  let (ff, l1) ← handleFrameField st.first_frame .failedParseFrame1
    (loadFrameFieldExc m "first_frame")
  let (sf, l2) ← handleFrameField st.second_frame .failedParseFrame2
    (loadFrameFieldExc m "second_frame")
  let (lbl, l3) := try_load_str m "label" st.label
  let (tpl, l4) := try_load_str m "scening_export_template" st.export_template
  pure (⟨ff, sf, lbl, tpl⟩, l1 ++ l2 ++ l3 ++ l4)

/-- A first/second-frame entry is "missing or wrongly typed" when the key is
absent or its value is neither `None` nor a `Frame`. -/
def frameEntryBad (m : StateMap) (k : String) : Bool :=
  match mapGet? m k with
  | some .pyNone => false
  | some (.pyFrame _) => false
  | _ => true

/-- The observable outcome of one frame-field block of `__setstate__`. -/
def frameFieldOutcome (m : StateMap) (k : String) (cur : Option Int) (warn : LogMsg) :
    Option Int × List LogMsg :=
  match mapGet? m k with
  | some .pyNone => (none, [])
  | some (.pyFrame n) => (some n, [])
  | _ => (cur, [warn])

/-- The scenes the lwi scan is expected to add: one single-frame scene at
the running frame counter for each `Key == 1` video record
(`Codec < 0x10000`); every record advances the counter by one. -/
def lwiKeyScenes : List (Nat × Nat) → Int → SceningList
  | [], _ => []
  | (codec, key) :: rest, i =>
    if codec < 0x10000 ∧ key = 1 then ⟨i, none, ""⟩ :: lwiKeyScenes rest (i + 1)
    else lwiKeyScenes rest (i + 1)

/-- The text `"{start} {end}".format(...)` produces for one scene. -/
def lineBody (s : Scene) : List Char :=
  (pyStrOfInt s.start).data ++ ' ' :: (pyStrOfInt (s.«end».getD s.start)).data

/-- One exported line including the `'\n'` appended by `export_multiline`. -/
def lineOf (s : Scene) : List Char := lineBody s ++ ['\n']

/-- The whole multiline export text. -/
def linesConcat : List Scene → List Char
  | [] => []
  | s :: rest => lineOf s ++ linesConcat rest

/-! ## Helper lemmas about `SceningList.add` -/

theorem add_some_ok (sl : SceningList) (start e : Int) (label : String) (mf : Int)
    (h1 : 0 ≤ start) (h2 : start ≤ mf) (h3 : 0 ≤ e) (h4 : e ≤ mf) (h5 : ¬(e < start))
    (hfind : ∀ d ∈ sl, ¬(d.start = start ∧ d.«end» = some e)) :
    SceningList.add sl start (some e) label mf =
      .ok (sl ++ [⟨start, some e, label⟩], ⟨start, some e, label⟩) := by
  have hf : sl.find? (fun s => s.start = start && s.«end» = some e) = none := by
    rw [List.find?_eq_none]
    intro d hd
    simpa using hfind d hd
  unfold SceningList.add SceningList.insertScene
  rw [if_neg (not_not_intro ⟨h1, h2⟩)]
  dsimp only
  rw [if_neg (not_not_intro ⟨h3, h4⟩), if_neg h5, hf]

theorem add_none_ok (sl : SceningList) (start : Int) (label : String) (mf : Int)
    (h1 : 0 ≤ start) (h2 : start ≤ mf)
    (hfind : ∀ d ∈ sl, ¬(d.start = start ∧ d.«end» = none)) :
    SceningList.add sl start none label mf =
      .ok (sl ++ [⟨start, none, label⟩], ⟨start, none, label⟩) := by
  have hf : sl.find? (fun s => s.start = start && s.«end» = none) = none := by
    rw [List.find?_eq_none]
    intro d hd
    simpa using hfind d hd
  unfold SceningList.add SceningList.insertScene
  rw [if_neg (not_not_intro ⟨h1, h2⟩)]
  dsimp only
  rw [hf]

/-! ## Claim theorems -/

/-- C1: **refuted (code bug)**.  The claim says every rejected scene is
counted and the caller logs a cumulative warning reporting the number of
dropped scenes.  On `"5 2\n0 1"` the importer's local count reaches 1 (the
line `5 2` has `end < start` and is dropped), yet `import_file` logs no
`droppedScenes` warning: the Python `int` argument is passed by value, so
the caller's `out_of_range_count` stays 0 and the warning branch is dead
code. -/
theorem c1_dropped_warning_never_logged :
    import_simple 100 "5 2\n0 1" [] 0 = .ok ([⟨0, some 1, ""⟩], 1, []) ∧
    import_file (import_simple 100) "5 2\n0 1" = .ok (some [⟨0, some 1, ""⟩], []) := by
  decide

/-- C2 counterexample: on a TFM log lacking `OVR HELP INFORMATION` the TFM
handler returns normally (it logs a warning) — it does not raise
`ImportError` as the claim states. -/
theorem c2_no_import_error_counterexample :
    import_tfm 100 "hello world" [] 0 = .ok ([], 0, [.tfmNoOvr]) := by decide

/-- C2 amended: for every TFM log text that does not contain the section
header `OVR HELP INFORMATION`, the importer logs a warning and returns
normally, adding zero scenes (no exception is raised). -/
theorem c2_missing_header_warns_and_returns (maxFrame : Int) (content : String)
    (sl : SceningList) (cnt : Nat)
    (h : findSub content.data "OVR HELP INFORMATION".data = none) :
    import_tfm maxFrame content sl cnt = .ok (sl, cnt, [.tfmNoOvr]) := by
  unfold import_tfm
  rw [h]

theorem c2_missing_header_witness :
    findSub ("hello world" : String).data "OVR HELP INFORMATION".data = none ∧
    import_tfm 100 "hello world" [] 0 = .ok ([], 0, [.tfmNoOvr]) :=
  ⟨by decide, c2_missing_header_warns_and_returns 100 "hello world" [] 0 (by decide)⟩

/-- C5: **refuted (code bug)**.  The pattern `r'(\d+)\sI|K'` parses as
`(\d+)\sI` OR `K`, so a `<n> K` line matches only the bare `K` with a
non-participating group: `findall` yields `''`, `Frame('')` raises
`ValueError`, and the scene is dropped (counted) instead of added at `n`.
`<n> I` lines behave as the claim states. -/
theorem c5_k_frames_dropped :
    import_qp 100 "0 K" [] 0 = .ok ([], 1, []) ∧
    import_qp 100 "0 I" [] 0 = .ok ([⟨0, none, ""⟩], 0, []) := by decide

/-- C6: **refuted (code bug)**.  On a line with fewer than two
whitespace-separated fields, `fnumbers[1]` (or `fnumbers[0]`) raises
`IndexError`, which the importer's `except ValueError` does not catch, so
the import aborts instead of dropping the line.  A malformed two-field line
is dropped as the claim states. -/
theorem c6_short_line_raises_index_error :
    import_simple 100 "5" [] 0 = .error .indexError ∧
    import_simple 100 "foo bar" [] 0 = .ok ([], 1, []) := by decide

/-- C10: whenever no scene list is selected, both export operations return
immediately: the clipboard is unchanged and no message is shown, for every
template string. -/
theorem c10_export_noop_when_no_list (template clipboard : String) :
    export_multiline none template clipboard = .normal clipboard [] [] ∧
    export_single_line none template clipboard = .normal clipboard [] [] :=
  ⟨rfl, rfl⟩

/-! ## C9: state restore -/

theorem handleFrameField_ok (m : StateMap) (k : String) (cur : Option Int) (w : LogMsg) :
    handleFrameField cur w (loadFrameFieldExc m k) = .ok (frameFieldOutcome m k cur w) := by
  rcases hm : mapGet? m k with _ | v
  · simp [handleFrameField, loadFrameFieldExc, pyGetItem, frameFieldOutcome, hm,
      Bind.bind, Except.bind, pure, Except.pure]
  · cases v <;>
      simp [handleFrameField, loadFrameFieldExc, pyGetItem, frameFieldOutcome, hm,
        Bind.bind, Except.bind, pure, Except.pure]

theorem setstate_eq (st : ToolbarState) (m : StateMap) :
    setstate st m = .ok
      (⟨(frameFieldOutcome m "first_frame" st.first_frame .failedParseFrame1).1,
        (frameFieldOutcome m "second_frame" st.second_frame .failedParseFrame2).1,
        (try_load_str m "label" st.label).1,
        (try_load_str m "scening_export_template" st.export_template).1⟩,
      (frameFieldOutcome m "first_frame" st.first_frame .failedParseFrame1).2 ++
        (frameFieldOutcome m "second_frame" st.second_frame .failedParseFrame2).2 ++
        (try_load_str m "label" st.label).2 ++
        (try_load_str m "scening_export_template" st.export_template).2) := by
  unfold setstate
  rw [handleFrameField_ok, handleFrameField_ok]
  rfl

theorem frameFieldOutcome_bad (m : StateMap) (k : String) (cur : Option Int) (w : LogMsg)
    (h : frameEntryBad m k = true) :
    frameFieldOutcome m k cur w = (cur, [w]) := by
  unfold frameEntryBad at h
  unfold frameFieldOutcome
  rcases hm : mapGet? m k with _ | v
  · rfl
  · cases v <;> simp_all

/-- C9: restoring the toolbar's state never aborts; a missing or
wrongly-typed `first_frame`/`second_frame` entry is logged and the field
stays absent (it is `None` after `__init__`), and the restore still
processes `label` and the export template. -/
theorem c9_restore_never_aborts (st : ToolbarState) (m : StateMap)
    (h1 : st.first_frame = none) (h2 : st.second_frame = none) :
    ∃ r logs, setstate st m = .ok (r, logs) ∧
      (frameEntryBad m "first_frame" = true →
        r.first_frame = none ∧ LogMsg.failedParseFrame1 ∈ logs) ∧
      (frameEntryBad m "second_frame" = true →
        r.second_frame = none ∧ LogMsg.failedParseFrame2 ∈ logs) ∧
      r.label = (try_load_str m "label" st.label).1 ∧
      r.export_template = (try_load_str m "scening_export_template" st.export_template).1 := by
  refine ⟨_, _, setstate_eq st m, ?_, ?_, rfl, rfl⟩
  · intro hbad
    rw [frameFieldOutcome_bad _ _ _ _ hbad]
    constructor
    · exact h1
    · simp
  · intro hbad
    rw [frameFieldOutcome_bad _ _ _ _ hbad]
    constructor
    · exact h2
    · simp

theorem c9_restore_witness :
    (⟨none, none, "", ""⟩ : ToolbarState).first_frame = none ∧
    (⟨none, none, "", ""⟩ : ToolbarState).second_frame = none ∧
    (∃ r logs,
      setstate ⟨none, none, "", ""⟩
        [("first_frame", .pyStr "bad"), ("label", .pyStr "L")] = .ok (r, logs) ∧
      (frameEntryBad [("first_frame", .pyStr "bad"), ("label", .pyStr "L")]
          "first_frame" = true →
        r.first_frame = none ∧ LogMsg.failedParseFrame1 ∈ logs) ∧
      (frameEntryBad [("first_frame", .pyStr "bad"), ("label", .pyStr "L")]
          "second_frame" = true →
        r.second_frame = none ∧ LogMsg.failedParseFrame2 ∈ logs) ∧
      r.label = (try_load_str [("first_frame", .pyStr "bad"), ("label", .pyStr "L")]
        "label" (⟨none, none, "", ""⟩ : ToolbarState).label).1 ∧
      r.export_template = (try_load_str
        [("first_frame", .pyStr "bad"), ("label", .pyStr "L")]
        "scening_export_template"
        (⟨none, none, "", ""⟩ : ToolbarState).export_template).1) :=
  ⟨rfl, rfl, c9_restore_never_aborts ⟨none, none, "", ""⟩
    [("first_frame", .pyStr "bad"), ("label", .pyStr "L")] rfl rfl⟩

/-! ## C4: unknown export placeholder -/

theorem lwiLoop_spec (maxFrame : Int) (ms : List (Nat × Nat)) :
    ∀ (sl : SceningList) (i : Int) (cnt : Nat),
      0 ≤ i → i + ms.length ≤ maxFrame + 1 →
      (∀ s ∈ sl, s.start < i) →
      lwiLoop maxFrame ms sl i cnt = (sl ++ lwiKeyScenes ms i, cnt) := by
  induction ms with
  | nil =>
    intro sl i cnt _ _ _
    simp [lwiLoop, lwiKeyScenes]
  | cons p rest ih =>
    obtain ⟨codec, key⟩ := p
    intro sl i cnt h0 hlen hsl
    have hlen0 : i + ((rest.length : Int) + 1) ≤ maxFrame + 1 := by
      simpa [Int.add_comm] using hlen
    have hlen' : (i + 1) + (rest.length : Int) ≤ maxFrame + 1 := by omega
    simp only [lwiLoop, lwiKeyScenes]
    by_cases hc : codec ≥ 0x10000
    · rw [if_pos hc,
        ih sl (i + 1) cnt (by omega) hlen' (fun s hs => by have := hsl s hs; omega),
        if_neg (by omega : ¬(codec < 0x10000 ∧ key = 1))]
    · rw [if_neg hc]
      by_cases hk : key = 1
      · rw [if_neg (not_not_intro hk)]
        have hadd := add_none_ok sl i "" maxFrame h0 (by omega)
          (fun d hd => fun hcontra => by
            have := hsl d hd
            omega)
        rw [hadd]
        dsimp only
        have hih := ih (sl ++ [(⟨i, none, ""⟩ : Scene)]) (i + 1) cnt (by omega) hlen'
          (fun s hs => by
            rcases List.mem_append.mp hs with hmem | hmem
            · have := hsl s hmem; omega
            · rw [List.mem_singleton] at hmem
              subst hmem
              exact lt_add_one i)
        rw [hih, if_pos ⟨by omega, hk⟩]
        simp
      · rw [if_pos hk,
          ih sl (i + 1) cnt (by omega) hlen' (fun s hs => by have := hsl s hs; omega),
          if_neg (fun hcontra => hk hcontra.2)]

/-- C8: scanning the `Index=0` records, the frame counter advances once per
matched record; audio records (`Codec >= 0x10000`) and non-key records add
no scene, and a single-frame scene at the current counter value is added
for exactly the `Key == 1` video records. -/
theorem c8_lwi_key_frames (content : String) (maxFrame : Int)
    (h : ((lwiMatches content).length : Int) ≤ maxFrame + 1) :
    import_lwi maxFrame content [] 0 =
      .ok (lwiKeyScenes (lwiMatches content) 0, 0, []) := by
  unfold import_lwi
  rw [lwiLoop_spec maxFrame (lwiMatches content) [] 0 0 le_rfl (by omega)
    (by intro s hs; cases hs)]
  simp

theorem c8_lwi_witness :
    ((lwiMatches
        "XXXXXXXX\nIndex=0,Codec=28\nKey=1\nIndex=0,Codec=28\nKey=0\nIndex=0,Codec=86018\nKey=1\n").length
      : Int) ≤ 100 + 1 ∧
    import_lwi 100
      "XXXXXXXX\nIndex=0,Codec=28\nKey=1\nIndex=0,Codec=28\nKey=0\nIndex=0,Codec=86018\nKey=1\n"
      [] 0 =
    .ok (lwiKeyScenes (lwiMatches
      "XXXXXXXX\nIndex=0,Codec=28\nKey=1\nIndex=0,Codec=28\nKey=0\nIndex=0,Codec=86018\nKey=1\n") 0,
      0, []) :=
  ⟨by decide,
    c8_lwi_key_frames
      "XXXXXXXX\nIndex=0,Codec=28\nKey=1\nIndex=0,Codec=28\nKey=0\nIndex=0,Codec=86018\nKey=1\n"
      100 (by decide)⟩

/-! ## C7: Matroska timestamps v2 on `[0, 100, 200, 350, 500]` ms -/

/-- C7: on the five-timestamp input `[0, 100, 200, 350, 500]` ms the
v2 handler adds exactly two run-scenes — `[0, 1]` labeled `"10.000 fps"` and
`[2, 4]` labeled `"6.667 fps"` (the documented `-1` offset at the run
boundary), one per run of constant inter-frame delta. -/
theorem c7_v2_two_runs (mf : Int) (h : 4 ≤ mf) :
    import_matroska_timestamps_v2 mf "0\n100\n200\n350\n500" [] 0 =
      .ok ([⟨0, some 1, "10.000 fps"⟩, ⟨2, some 4, "6.667 fps"⟩], 0, []) := by
  have hadd1 : SceningList.add ([] : SceningList) 0 (some 1) "10.000 fps" mf =
      .ok ([⟨0, some 1, "10.000 fps"⟩], ⟨0, some 1, "10.000 fps"⟩) :=
    add_some_ok [] 0 1 _ mf (by norm_num) (by omega) (by norm_num) (by omega) (by norm_num)
      (by intro d hd; cases hd)
  have hadd2 : SceningList.add [(⟨0, some 1, "10.000 fps"⟩ : Scene)] 2 (some 4) "6.667 fps" mf =
      .ok ([⟨0, some 1, "10.000 fps"⟩, ⟨2, some 4, "6.667 fps"⟩], ⟨2, some 4, "6.667 fps"⟩) := by
    have := add_some_ok [(⟨0, some 1, "10.000 fps"⟩ : Scene)] 2 4 "6.667 fps" mf
      (by norm_num) (by omega) (by norm_num) (by omega) (by norm_num)
      (by intro d hd; rw [List.mem_singleton] at hd; subst hd; simp)
    simpa using this
  have hts : (pySplitlinesL ("0\n100\n200\n350\n500" : String).data).filterMap pyFloat? =
      [⟨0, 1⟩, ⟨100, 1⟩, ⟨200, 1⟩, ⟨350, 1⟩, ⟨500, 1⟩] := by decide
  have hv2d : v2Deltas [(⟨0, 1⟩ : PyQ), ⟨100, 1⟩, ⟨200, 1⟩, ⟨350, 1⟩, ⟨500, 1⟩] =
      [⟨100, 1⟩, ⟨100, 1⟩, ⟨150, 1⟩, ⟨150, 1⟩] := by decide
  have hlbl1 : fmt3 (PyQ.inv ((⟨100, 1⟩ : PyQ).divInt 1000)) ++ " fps" = "10.000 fps" := by decide
  have hlbl2 : fmt3 (PyQ.inv ((⟨150, 1⟩ : PyQ).divInt 1000)) ++ " fps" = "6.667 fps" := by decide
  have hs1 : v2Loop mf [⟨100, 1⟩, ⟨150, 1⟩, ⟨150, 1⟩] 1 ⟨100, 1⟩ 0 [] 0 =
      v2Loop mf [⟨150, 1⟩, ⟨150, 1⟩] 2 ⟨100, 1⟩ 0 [] 0 := by
    rw [v2Loop, if_pos (by decide)]
  have hs2 : v2Loop mf [⟨150, 1⟩, ⟨150, 1⟩] 2 ⟨100, 1⟩ 0 [] 0 =
      v2Loop mf [⟨150, 1⟩] 3 ⟨150, 1⟩ 2 [⟨0, some 1, "10.000 fps"⟩] 0 := by
    rw [v2Loop, if_neg (by decide)]
    norm_num [hlbl1, hadd1]
  have hs3 : v2Loop mf [(⟨150, 1⟩ : PyQ)] 3 ⟨150, 1⟩ 2 [⟨0, some 1, "10.000 fps"⟩] 0 =
      v2Loop mf [] 4 ⟨150, 1⟩ 2 [⟨0, some 1, "10.000 fps"⟩] 0 := by
    conv_lhs => rw [v2Loop]
    rw [if_pos (by decide)]
  have hs4 : v2Loop mf ([] : List PyQ) 4 ⟨150, 1⟩ 2 [⟨0, some 1, "10.000 fps"⟩] 0 =
      (⟨150, 1⟩, 2, [⟨0, some 1, "10.000 fps"⟩], 0) := by
    rw [v2Loop]
  unfold import_matroska_timestamps_v2
  rw [hts, if_neg (by decide), hv2d]
  dsimp only
  rw [hs1, hs2, hs3, hs4]
  dsimp only
  norm_num [hlbl2, hadd2]

theorem c7_v2_witness :
    (4 : Int) ≤ 100 ∧
    import_matroska_timestamps_v2 100 "0\n100\n200\n350\n500" [] 0 =
      .ok ([⟨0, some 1, "10.000 fps"⟩, ⟨2, some 4, "6.667 fps"⟩], 0, []) :=
  ⟨by decide, c7_v2_two_runs 100 (by decide)⟩

/-! ## C3: render/parse round-trip infrastructure -/

theorem natDigits_acc (fuel : Nat) : ∀ (n : Nat) (acc : List Char),
    natDigits fuel n acc = natDigits fuel n [] ++ acc := by
  induction fuel with
  | zero => intro n acc; simp [natDigits]
  | succ fuel ih =>
    intro n acc
    simp only [natDigits]
    by_cases h : n < 10
    · rw [if_pos h, if_pos h]
      rfl
    · rw [if_neg h, if_neg h, ih (n / 10) (Nat.digitChar (n % 10) :: acc),
        ih (n / 10) [Nat.digitChar (n % 10)]]
      simp

theorem natDigits_fuel : ∀ (n fuel1 fuel2 : Nat), n < fuel1 → n < fuel2 →
    ∀ acc, natDigits fuel1 n acc = natDigits fuel2 n acc := by
  intro n
  induction n using Nat.strong_induction_on with
  | _ n ih =>
    intro fuel1 fuel2 h1 h2 acc
    match fuel1, fuel2 with
    | f1 + 1, f2 + 1 =>
      simp only [natDigits]
      by_cases h : n < 10
      · rw [if_pos h, if_pos h]
      · rw [if_neg h, if_neg h]
        have hdiv : n / 10 < n := Nat.div_lt_self (by omega) (by omega)
        exact ih (n / 10) hdiv f1 f2 (by omega) (by omega) _

theorem digitChar_isDigit {d : Nat} (h : d < 10) : (Nat.digitChar d).isDigit = true := by
  interval_cases d <;> decide

theorem digitChar_val {d : Nat} (h : d < 10) : charVal (Nat.digitChar d) = d := by
  interval_cases d <;> decide

/-- A digit character is none of the class characters the parsers route
on. -/
theorem digit_char_classes {c : Char} (h : c.isDigit = true) :
    pyIsSpace c = false ∧ c ≠ '\n' ∧ c ≠ '\r' ∧ c ≠ '-' ∧ c ≠ '+' := by
  have hne : ∀ x : Char, x.isDigit = false → ¬(c = x) := by
    intro x hx heq
    rw [heq, hx] at h
    exact Bool.noConfusion h
  refine ⟨?_, hne '\n' (by decide), hne '\r' (by decide), hne '-' (by decide),
    hne '+' (by decide)⟩
  simp [pyIsSpace, hne ' ' (by decide), hne '\t' (by decide), hne '\n' (by decide),
    hne '\r' (by decide), hne '\x0b' (by decide), hne '\x0c' (by decide)]

theorem natToStrL_digits (n : Nat) : ∀ c ∈ natToStrL n, c.isDigit = true := by
  induction n using Nat.strong_induction_on with
  | _ n ih =>
    intro c hc
    unfold natToStrL at hc
    simp only [natDigits] at hc
    by_cases h : n < 10
    · rw [if_pos h] at hc
      rw [List.mem_singleton] at hc
      subst hc
      exact digitChar_isDigit h
    · rw [if_neg h, natDigits_acc,
        natDigits_fuel (n / 10) n (n / 10 + 1)
          (Nat.div_lt_self (show 0 < n by omega) (show 1 < 10 by norm_num))
          (by omega)] at hc
      rcases List.mem_append.mp hc with hm | hm
      · exact ih (n / 10)
          (Nat.div_lt_self (show 0 < n by omega) (show 1 < 10 by norm_num)) c hm
      · rw [List.mem_singleton] at hm
        subst hm
        exact digitChar_isDigit (Nat.mod_lt n (by omega))

theorem natToStrL_ne_nil (n : Nat) : natToStrL n ≠ [] := by
  unfold natToStrL
  simp only [natDigits]
  by_cases h : n < 10
  · rw [if_pos h]
    simp
  · rw [if_neg h, natDigits_acc]
    simp

theorem natToStrL_readback (n : Nat) :
    (natToStrL n).foldl (fun a c => a * 10 + charVal c) 0 = n := by
  induction n using Nat.strong_induction_on with
  | _ n ih =>
    unfold natToStrL
    simp only [natDigits]
    by_cases h : n < 10
    · rw [if_pos h]
      simp [digitChar_val h]
    · rw [if_neg h, natDigits_acc,
        natDigits_fuel (n / 10) n (n / 10 + 1)
          (Nat.div_lt_self (show 0 < n by omega) (show 1 < 10 by norm_num))
          (by omega)]
      rw [List.foldl_append]
      have hfold : natDigits (n / 10 + 1) (n / 10) [] = natToStrL (n / 10) := rfl
      rw [hfold, ih (n / 10)
        (Nat.div_lt_self (show 0 < n by omega) (show 1 < 10 by norm_num))]
      simp [digitChar_val (Nat.mod_lt n (show 0 < 10 by omega))]
      omega

theorem pyDigitsAux_digits : ∀ (cs : List Char), (∀ c ∈ cs, c.isDigit = true) →
    ∀ acc, pyDigitsAux cs acc = some (cs.foldl (fun a c => a * 10 + charVal c) acc) := by
  intro cs
  induction cs with
  | nil => intro _ acc; rfl
  | cons c rest ih =>
    intro h acc
    have hc : c.isDigit = true := h c (List.mem_cons_self c rest)
    rw [pyDigitsAux.eq_def]
    simp only []
    rw [if_pos hc, List.foldl_cons]
    exact ih (fun c' hc' => h c' (List.mem_cons_of_mem c hc')) _

theorem pyDigits?_natToStr (n : Nat) : pyDigits? (natToStrL n) = some n := by
  rcases hcs : natToStrL n with _ | ⟨c, rest⟩
  · exact absurd hcs (natToStrL_ne_nil n)
  · have hall : ∀ x ∈ natToStrL n, x.isDigit = true := natToStrL_digits n
    rw [hcs] at hall
    have hc : c.isDigit = true := hall c (List.mem_cons_self c rest)
    simp only [pyDigits?]
    rw [if_pos hc, pyDigitsAux_digits rest
      (fun x hx => hall x (List.mem_cons_of_mem c hx))]
    have hfold : rest.foldl (fun a c => a * 10 + charVal c) (charVal c) =
        (c :: rest).foldl (fun a c => a * 10 + charVal c) 0 := by
      simp
    rw [hfold, ← hcs, natToStrL_readback]

theorem pyIntToken?_natToStr (n : Nat) : pyIntToken? (natToStrL n) = some (n : Int) := by
  rcases hcs : natToStrL n with _ | ⟨c, rest⟩
  · exact absurd hcs (natToStrL_ne_nil n)
  · have hc : c.isDigit = true := by
      have := natToStrL_digits n
      rw [hcs] at this
      exact this c (List.mem_cons_self c rest)
    obtain ⟨_, _, _, hm, hp⟩ := digit_char_classes hc
    simp only [pyIntToken?]
    rw [if_neg hm, if_neg hp, ← hcs, pyDigits?_natToStr]
    rfl

/-- Rendering `str(Frame)` of a non-negative frame yields the decimal digits. -/
theorem pyStrOfInt_nonneg {i : Int} (h : 0 ≤ i) :
    (pyStrOfInt i).data = natToStrL i.natAbs := by
  unfold pyStrOfInt
  rw [if_neg (not_lt.mpr h)]

theorem pyIntToken?_int {i : Int} (h : 0 ≤ i) :
    pyIntToken? (pyStrOfInt i).data = some i := by
  rw [pyStrOfInt_nonneg h, pyIntToken?_natToStr]
  congr 1
  exact Int.natAbs_of_nonneg h

/-- Every character of a rendered non-negative frame number is a digit. -/
theorem pyStrOfInt_digits {i : Int} (h : 0 ≤ i) :
    ∀ c ∈ (pyStrOfInt i).data, c.isDigit = true := by
  rw [pyStrOfInt_nonneg h]
  exact natToStrL_digits i.natAbs

theorem pySplitAux_token : ∀ (t : List Char), (∀ c ∈ t, pyIsSpace c = false) →
    ∀ (rest cur : List Char),
      pySplitAux (t ++ rest) cur = pySplitAux rest (t.reverse ++ cur) := by
  intro t
  induction t with
  | nil => intro _ rest cur; simp
  | cons c t' ih =>
    intro h rest cur
    have hc : pyIsSpace c = false := h c (List.mem_cons_self c t')
    rw [List.cons_append, pySplitAux, if_neg (by simp [hc])]
    rw [ih (fun c' hc' => h c' (List.mem_cons_of_mem c hc')) rest (c :: cur)]
    simp

theorem pySplitL_two_tokens (t1 t2 : List Char)
    (h1 : ∀ c ∈ t1, pyIsSpace c = false) (h2 : ∀ c ∈ t2, pyIsSpace c = false)
    (hn1 : t1 ≠ []) (hn2 : t2 ≠ []) :
    pySplitL (t1 ++ ' ' :: t2) = [t1, t2] := by
  unfold pySplitL
  rw [pySplitAux_token t1 h1 (' ' :: t2) []]
  rw [pySplitAux, if_pos (by decide)]
  rw [if_neg (by simp [hn1])]
  have ht2 : pySplitAux t2 [] = pySplitAux [] (t2.reverse ++ []) := by
    have := pySplitAux_token t2 h2 [] []
    rw [List.append_nil] at this
    exact this
  rw [ht2]
  rw [pySplitAux, if_neg (by simp [hn2])]
  simp

theorem pySplitlinesAux_step (c : Char) (tail cur : List Char)
    (h1 : c ≠ '\n') (h2 : c ≠ '\r') :
    pySplitlinesAux (c :: tail) cur = pySplitlinesAux tail (c :: cur) := by
  rw [pySplitlinesAux.eq_def]
  split
  · simp_all
  · rename_i heq
    injection heq with hc _
    exact absurd hc h2
  · rename_i heq
    injection heq with hc hrest
    subst hc
    subst hrest
    rw [if_neg (by simp [h1, h2])]

theorem pySplitlinesAux_nl (rest cur : List Char) :
    pySplitlinesAux ('\n' :: rest) cur = cur.reverse :: pySplitlinesAux rest [] := by
  rw [pySplitlinesAux.eq_def]
  split
  · simp_all
  · rename_i heq
    injection heq with hc _
    exact absurd hc.symm (by decide)
  · rename_i heq
    injection heq with hc hrest
    subst hc
    subst hrest
    rw [if_pos (by decide)]

theorem pySplitlinesAux_line : ∀ (body : List Char),
    (∀ c ∈ body, c ≠ '\n' ∧ c ≠ '\r') →
    ∀ (rest cur : List Char),
      pySplitlinesAux (body ++ '\n' :: rest) cur =
        (cur.reverse ++ body) :: pySplitlinesAux rest [] := by
  intro body
  induction body with
  | nil =>
    intro _ rest cur
    rw [List.nil_append, pySplitlinesAux_nl]
    simp
  | cons c body' ih =>
    intro h rest cur
    have hc := h c (List.mem_cons_self c body')
    rw [List.cons_append, pySplitlinesAux_step c _ cur hc.1 hc.2]
    rw [ih (fun x hx => h x (List.mem_cons_of_mem c hx)) rest (c :: cur)]
    simp

/-- Characters of an exported line body (decimal digits and one space) are
neither newlines nor carriage returns. -/
theorem lineBody_no_newline (s : Scene) (hstart : 0 ≤ s.start)
    (hend : 0 ≤ s.«end».getD s.start) :
    ∀ c ∈ lineBody s, c ≠ '\n' ∧ c ≠ '\r' := by
  intro c hc
  unfold lineBody at hc
  rcases List.mem_append.mp hc with hm | hm
  · have hd := pyStrOfInt_digits hstart c hm
    exact ⟨(digit_char_classes hd).2.1, (digit_char_classes hd).2.2.1⟩
  · rcases List.mem_cons.mp hm with rfl | hm2
    · exact ⟨by decide, by decide⟩
    · have hd := pyStrOfInt_digits hend c hm2
      exact ⟨(digit_char_classes hd).2.1, (digit_char_classes hd).2.2.1⟩

theorem pySplitlinesL_linesConcat : ∀ (sl : List Scene),
    (∀ s ∈ sl, 0 ≤ s.start ∧ 0 ≤ s.«end».getD s.start) →
    pySplitlinesL (linesConcat sl) = sl.map lineBody := by
  intro sl
  induction sl with
  | nil => intro _; rfl
  | cons s rest ih =>
    intro h
    have hs := h s (List.mem_cons_self s rest)
    unfold linesConcat lineOf pySplitlinesL
    rw [List.append_assoc, List.singleton_append,
      pySplitlinesAux_line (lineBody s) (lineBody_no_newline s hs.1 hs.2)
        (linesConcat rest) []]
    simp only [List.reverse_nil, List.nil_append, List.map_cons]
    congr 1
    exact ih (fun x hx => h x (List.mem_cons_of_mem s hx))

theorem pyFormat_start_end (s : Scene) :
    pyFormat s ("{start} {end}" : String).data = .ok (lineBody s) := by
  unfold pyFormat
  rw [show tmplParseF (("{start} {end}" : String).data.length)
      (("{start} {end}" : String).data) =
    .ok [.field "start", .lit ' ', .field "end"] from by decide]
  have hstart : fmtArgs s "start" = some (pyStrOfInt s.start) := rfl
  have hend : fmtArgs s "end" = some (pyStrOfInt (s.«end».getD s.start)) := rfl
  simp [renderSegs, hstart, hend, lineBody, Except.map]

theorem exportLoopMulti_lines : ∀ (sl : List Scene) (acc : List Char),
    exportLoopMulti ("{start} {end}" : String).data sl acc =
      .ok (acc ++ linesConcat sl) := by
  intro sl
  induction sl with
  | nil => intro acc; simp [exportLoopMulti, linesConcat]
  | cons s rest ih =>
    intro acc
    conv_lhs => rw [exportLoopMulti.eq_def]
    dsimp only
    rw [pyFormat_start_end s]
    dsimp only
    rw [ih (acc ++ lineBody s ++ ['\n'])]
    rw [show linesConcat (s :: rest) = lineOf s ++ linesConcat rest from rfl]
    unfold lineOf
    simp [List.append_assoc]

theorem export_multiline_lines (sl : SceningList) (clip : String) :
    export_multiline (some sl) "{start} {end}" clip =
      .normal (String.mk (linesConcat sl)) [.exportedToClipboard] [] := by
  unfold export_multiline
  dsimp only
  rw [exportLoopMulti_lines sl []]
  simp

theorem pyStrOfInt_ne_nil {i : Int} (h : 0 ≤ i) : (pyStrOfInt i).data ≠ [] := by
  rw [pyStrOfInt_nonneg h]
  exact natToStrL_ne_nil i.natAbs

theorem importSimpleLine_scene (mf : Int) (s : Scene) (done : SceningList)
    (cnt : Nat) (e : Int) (he : s.«end» = some e)
    (h0 : 0 ≤ s.start) (hse : s.start ≤ e) (hemax : e ≤ mf)
    (hfind : ∀ d ∈ done, ¬(d.start = s.start ∧ d.«end» = some e)) :
    importSimpleLine mf (lineBody s) done cnt =
      .ok (done ++ [⟨s.start, some e, ""⟩], cnt) := by
  have he0 : 0 ≤ e := le_trans h0 hse
  have hgetD : s.«end».getD s.start = e := by rw [he]; rfl
  have hsplit : pySplitL (lineBody s) =
      [(pyStrOfInt s.start).data, (pyStrOfInt e).data] := by
    unfold lineBody
    rw [hgetD]
    exact pySplitL_two_tokens _ _
      (fun c hc => (digit_char_classes (pyStrOfInt_digits h0 c hc)).1)
      (fun c hc => (digit_char_classes (pyStrOfInt_digits he0 c hc)).1)
      (pyStrOfInt_ne_nil h0) (pyStrOfInt_ne_nil he0)
  have hmap : mapIntAll [(pyStrOfInt s.start).data, (pyStrOfInt e).data] =
      some [s.start, e] := by
    simp only [mapIntAll, pyIntToken?_int h0, pyIntToken?_int he0, Option.map]
  unfold importSimpleLine
  rw [hsplit, hmap]
  dsimp only [List.get?]
  rw [add_some_ok done s.start e "" mf h0 (le_trans hse hemax) he0 hemax
    (not_lt.mpr hse) hfind]

theorem importSimpleLoop_lines (mf : Int) : ∀ (pending : List Scene)
    (done : SceningList) (cnt : Nat),
    (∀ s ∈ pending, 0 ≤ s.start ∧ ∃ e, s.«end» = some e ∧ s.start ≤ e ∧ e ≤ mf) →
    (∀ s ∈ pending, ∀ d ∈ done, ¬(d.start = s.start ∧ d.«end» = s.«end»)) →
    List.Pairwise (fun a b => ¬(a.start = b.start ∧ a.«end» = b.«end»)) pending →
    importSimpleLoop mf (pending.map lineBody) done cnt =
      .ok (done ++ pending.map (fun s => ⟨s.start, s.«end», ""⟩), cnt) := by
  intro pending
  induction pending with
  | nil => intro done cnt _ _ _; simp [importSimpleLoop]
  | cons s rest ih =>
    intro done cnt hval hdone hpw
    obtain ⟨h0, e, he, hse, hemax⟩ := hval s (List.mem_cons_self s rest)
    rw [List.map_cons]
    conv_lhs => rw [importSimpleLoop.eq_def]
    dsimp only
    rw [importSimpleLine_scene mf s done cnt e he h0 hse hemax
      (fun d hd => by
        have := hdone s (List.mem_cons_self s rest) d hd
        rw [he] at this
        exact this)]
    dsimp only
    have hih := ih (done ++ [(⟨s.start, some e, ""⟩ : Scene)]) cnt
      (fun x hx => hval x (List.mem_cons_of_mem s hx))
      (fun x hx d hd => by
        rcases List.mem_append.mp hd with hm | hm
        · exact hdone x (List.mem_cons_of_mem s hx) d hm
        · rw [List.mem_singleton] at hm
          subst hm
          have hR := (List.pairwise_cons.mp hpw).1 x hx
          rw [he] at hR
          exact hR)
      (List.pairwise_cons.mp hpw).2
    rw [hih]
    simp [he]

theorem import_simple_lines (mf : Int) (sl : List Scene)
    (hval : ∀ s ∈ sl, 0 ≤ s.start ∧ ∃ e, s.«end» = some e ∧ s.start ≤ e ∧ e ≤ mf)
    (hpw : List.Pairwise (fun a b => ¬(a.start = b.start ∧ a.«end» = b.«end»)) sl) :
    import_simple mf (String.mk (linesConcat sl)) [] 0 =
      .ok (sl.map (fun s => ⟨s.start, s.«end», ""⟩), 0, []) := by
  unfold import_simple
  have hdata : (String.mk (linesConcat sl)).data = linesConcat sl := rfl
  rw [hdata, pySplitlinesL_linesConcat sl
    (fun s hs => by
      obtain ⟨h0, e, he, hse, _⟩ := hval s hs
      refine ⟨h0, ?_⟩
      rw [he]
      exact le_trans h0 hse)]
  rw [importSimpleLoop_lines mf sl [] 0 hval
    (fun s _ d hd => absurd hd (List.not_mem_nil d)) hpw]
  rfl

/-- C3 amended: with the whitespace template `"{start} {end}"` (the
multiline exporter appends the newline), exporting a scene list whose
scenes have explicit in-range ends and pairwise-distinct `(start, end)`
pairs and re-importing the produced text through the simple-mapping
parser yields exactly the original `(start, end)` pairs in order, with
labels lost. -/
theorem c3_roundtrip_ws_template (mf : Int) (sl : SceningList) (clip : String)
    (hval : ∀ s ∈ sl, 0 ≤ s.start ∧ ∃ e, s.«end» = some e ∧ s.start ≤ e ∧ e ≤ mf)
    (hpw : List.Pairwise (fun a b => ¬(a.start = b.start ∧ a.«end» = b.«end»)) sl) :
    export_multiline (some sl) "{start} {end}" clip =
      .normal (String.mk (linesConcat sl)) [.exportedToClipboard] [] ∧
    import_simple mf (String.mk (linesConcat sl)) [] 0 =
      .ok (sl.map (fun s => ⟨s.start, s.«end», ""⟩), 0, []) :=
  ⟨export_multiline_lines sl clip, import_simple_lines mf sl hval hpw⟩

theorem c3_roundtrip_witness :
    (∀ s ∈ ([⟨0, some 1, "a"⟩, ⟨3, some 3, "b"⟩] : SceningList),
      0 ≤ s.start ∧ ∃ e, s.«end» = some e ∧ s.start ≤ e ∧ e ≤ (10 : Int)) ∧
    List.Pairwise (fun a b => ¬(a.start = b.start ∧ a.«end» = b.«end»))
      ([⟨0, some 1, "a"⟩, ⟨3, some 3, "b"⟩] : SceningList) ∧
    (export_multiline (some [⟨0, some 1, "a"⟩, ⟨3, some 3, "b"⟩]) "{start} {end}" "x" =
      .normal (String.mk (linesConcat [⟨0, some 1, "a"⟩, ⟨3, some 3, "b"⟩]))
        [.exportedToClipboard] [] ∧
    import_simple 10 (String.mk (linesConcat [⟨0, some 1, "a"⟩, ⟨3, some 3, "b"⟩])) [] 0 =
      .ok (([⟨0, some 1, "a"⟩, ⟨3, some 3, "b"⟩] : SceningList).map
        (fun s => ⟨s.start, s.«end», ""⟩), 0, [])) := by
  have hval : ∀ s ∈ ([⟨0, some 1, "a"⟩, ⟨3, some 3, "b"⟩] : SceningList),
      0 ≤ s.start ∧ ∃ e, s.«end» = some e ∧ s.start ≤ e ∧ e ≤ (10 : Int) := by
    intro s hs
    rcases List.mem_cons.mp hs with rfl | hs2
    · exact ⟨by norm_num, 1, rfl, by norm_num, by norm_num⟩
    · rcases List.mem_cons.mp hs2 with rfl | hs3
      · exact ⟨by norm_num, 3, rfl, by norm_num, by norm_num⟩
      · cases hs3
  have hpw : List.Pairwise (fun a b => ¬(a.start = b.start ∧ a.«end» = b.«end»))
      ([⟨0, some 1, "a"⟩, ⟨3, some 3, "b"⟩] : SceningList) := by decide
  exact ⟨hval, hpw, c3_roundtrip_ws_template 10 _ "x" hval hpw⟩

/-- C3 counterexample: with the claim's template `"{start}-{end}\n"`, the
rendered line `0-1` is not whitespace-separated (so it is dropped as a
`ValueError`), and the blank line produced by the extra newline makes the
re-import raise `IndexError` — the original `(start, end)` pairs are not
reproduced. -/
theorem c3_dash_template_counterexample :
    export_multiline (some [⟨0, some 1, "a"⟩]) "{start}-{end}\n" "" =
      .normal "0-1\n\n" [.exportedToClipboard] [] ∧
    import_simple 10 "0-1\n\n" [] 0 = .error .indexError := by decide
